import Mathlib

/-!
Verification development for the behavioral-CAPTCHA engine.

The definitions below are a shallow embedding of the repository's code:
- `calculateBasicRiskScore`, `validateCaptcha`, `postChallenge` embed
  backend/server.js (the updated version with ML integration);
- `recordMouseMovement`, `recordClick`, `recordKeystroke` embed the ring
  buffers of frontend/src/hooks/useBehaviorTracking.ts;
- `clickSeqRun`, `stepChallenge`, `runChallenge`, `timeoutTick` embed the
  challenge components (ChallengeSystem.tsx and CompleteCaptchaSystem.tsx);
- `typingPattern` embeds the analytics of KeystrokeAnalyzer.tsx.

Numbers are modelled as exact rationals (`ℚ`); at every concrete input used
in a theorem the JavaScript double-precision computation yields the same
value as the rational one.
-/

/-- A mouse-movement sample as sent to the backend (x, y, timestamp,
derived velocity). Only `velocity` is read by the risk scorer. -/
structure MouseMovement where
  x : ℚ
  y : ℚ
  timestamp : ℚ
  velocity : ℚ
deriving DecidableEq, Repr

/-- A click sample `{x, y, timestamp}`. -/
structure ClickSample where
  x : ℚ
  y : ℚ
  timestamp : ℚ
deriving DecidableEq, Repr

/-- A keystroke sample `{key, timestamp, duration}`. -/
structure KeystrokeSample where
  key : String
  timestamp : ℚ
  duration : ℚ
deriving DecidableEq, Repr

/-- The `behaviorData` object consumed by the validation endpoint. -/
structure BehaviorData where
  mouseMovements : List MouseMovement
  clicks : List ClickSample
  keystrokes : List KeystrokeSample
  sessionDuration : ℚ
deriving DecidableEq, Repr

/-- `mouseMovements.reduce((sum, m) => sum + (m.velocity || 0), 0) / length`. -/
def avgVelocity (ms : List MouseMovement) : ℚ :=
  (ms.map (·.velocity)).sum / ms.length

/-- Sum of `|v_i - v_(i-1)|` over consecutive velocities, i.e. the
accumulator of the `reduce` computing `velocityVariation` in server.js. -/
def sumAbsDeltas : List ℚ → ℚ
  | [] => 0
  | [_] => 0
  | a :: b :: rest => |b - a| + sumAbsDeltas (b :: rest)

/-- `velocityVariation = sumAbsDeltas / Math.max(length - 1, 1)`. -/
def velocityVariation (ms : List MouseMovement) : ℚ :=
  sumAbsDeltas (ms.map (·.velocity)) / max ((ms.length : ℚ) - 1) 1

/-- `clickFrequency = clicks.length / Math.max(sessionDuration / 1000, 1)`
from the click-analysis block of `calculateBasicRiskScore`. -/
def clickFrequency (b : BehaviorData) : ℚ :=
  (b.clicks.length : ℚ) / max (b.sessionDuration / 1000) 1

/-- The denominator of `clickFrequency`: `Math.max(sessionDuration/1000, 1)`. -/
def clickFrequencyDenom (b : BehaviorData) : ℚ :=
  max (b.sessionDuration / 1000) 1

/-- `avgDuration = keystrokes.reduce((sum, k) => sum + (k.duration || 0), 0) / length`. -/
def avgKeystrokeDuration (ks : List KeystrokeSample) : ℚ :=
  (ks.map (·.duration)).sum / ks.length

/-- The final clamp of the scorer: `Math.max(0, Math.min(1, riskScore))`. -/
def clamp01 (q : ℚ) : ℚ := max 0 (min 1 q)

/-- The body of `calculateBasicRiskScore` before its final clamp: start at
0.5, apply the mouse / click / keystroke / session-duration adjustments in
the order the code performs them. -/
def preClampRiskScore (b : BehaviorData) : ℚ :=
  let r0 : ℚ := 0.5
  let r1 :=
    if b.mouseMovements.length > 0 then
      let av := avgVelocity b.mouseMovements
      let vv := velocityVariation b.mouseMovements
      let a := if av > 0.1 ∧ av < 3.0 then r0 - 0.1 else r0
      let a := if vv > 0.5 then a - 0.1 else a
      let a := if av > 10 ∨ av = 0 then a + 0.2 else a
      if vv < 0.1 then a + 0.2 else a
    else r0 + 0.3
  let r2 :=
    if b.clicks.length > 0 then
      let cf := clickFrequency b
      let a := if cf > 0.1 ∧ cf < 2.0 then r1 - 0.1 else r1
      if cf > 5.0 then a + 0.2 else a
    else r1
  let r3 :=
    if b.keystrokes.length > 0 then
      let ad := avgKeystrokeDuration b.keystrokes
      let a := if ad > 50 ∧ ad < 300 then r2 - 0.1 else r2
      if ad < 20 ∨ ad > 500 then a + 0.1 else a
    else r2
  let r4 := if b.sessionDuration > 5000 then r3 - 0.1 else r3
  if b.sessionDuration < 1000 then r4 + 0.2 else r4

/-- `calculateBasicRiskScore` from backend/server.js: the adjustments of
`preClampRiskScore` followed by the clamp to [0, 1]. -/
def calculateBasicRiskScore (b : BehaviorData) : ℚ :=
  clamp01 (preClampRiskScore b)

/-- The prediction object of a well-formed ML-service response
(`is_human`, `risk_score`, `confidence`). -/
structure MLPrediction where
  is_human : Bool
  risk_score : ℚ
  confidence : ℚ
deriving DecidableEq, Repr

/-- The JSON body returned by the ML service `/predict` endpoint, as far as
server.js inspects it: a `success` flag and an optional `prediction`. -/
structure MLResponse where
  success : Bool
  prediction : Option MLPrediction
deriving DecidableEq, Repr

/-- Outcome of `callMLService('/predict', ...)`: either the call threw
(network error, timeout, non-2xx status, malformed JSON — all of which
`callMLService` re-throws) or it returned a parsed response body. -/
inductive MLOutcome where
  | failure
  | response (r : MLResponse)
deriving DecidableEq, Repr

/-- The guard `if (mlResponse.success && mlResponse.prediction)` of the
validate endpoint: the prediction actually used, if any. A thrown call, a
`success: false` body, or a missing prediction all lead to the catch block. -/
def mlUsable : MLOutcome → Option MLPrediction
  | .failure => none
  | .response r => if r.success then r.prediction else none

/-- The `result` object assembled by `/api/captcha/validate`. -/
structure RiskAssessment where
  isHuman : Bool
  riskScore : ℚ
  confidence : ℚ
  needsChallenge : Bool
  method : String
deriving DecidableEq, Repr

/-- The assessment computed in the catch block of the validate endpoint:
`riskScore = calculateBasicRiskScore(behaviorData)`, `isHuman = riskScore < 0.6`,
`confidence = |0.5 - riskScore| * 2`, `method = 'fallback_algorithm'`,
then `needsChallenge = riskScore > 0.7 || confidence < 0.4`. -/
def fallbackAssessment (b : BehaviorData) : RiskAssessment :=
  let r := calculateBasicRiskScore b
  { isHuman := decide (r < 0.6)
    riskScore := r
    confidence := |0.5 - r| * 2
    needsChallenge := decide (r > 0.7) || decide (|0.5 - r| * 2 < 0.4)
    method := "fallback_algorithm" }

/-- `/api/captcha/validate` (server.js, ML version): use the ML prediction
when the response is usable, otherwise fall back; in both cases derive
`needsChallenge = riskScore > 0.7 || confidence < 0.4` afterwards. -/
def validateCaptcha (b : BehaviorData) (ml : MLOutcome) : RiskAssessment :=
  match mlUsable ml with
  | some p =>
      { isHuman := p.is_human
        riskScore := p.risk_score
        confidence := p.confidence
        needsChallenge := decide (p.risk_score > 0.7) || decide (p.confidence < 0.4)
        method := "ml_model" }
  | none => fallbackAssessment b

/-- The HTTP-level reply of the validate endpoint: the handler always
answers `res.json({ success: true, result: ... })` once `behaviorData` is
present — classifier errors are consumed by the inner catch. -/
structure ValidateReply where
  success : Bool
  result : RiskAssessment
deriving DecidableEq, Repr

/-- The validate endpoint as a total function of the request body and of the
classifier call's outcome. -/
def postValidate (b : BehaviorData) (ml : MLOutcome) : ValidateReply :=
  { success := true, result := validateCaptcha b ml }

/-! ## Telemetry ring buffers (useBehaviorTracking.ts)

Each recording handler does `[...prev.slice(-k), sample]` on its list:
keep the last `k` entries, append the new one, so the buffer holds at most
`k + 1` entries (`k` = 49 for motion, 19 for clicks, 29 for keystrokes).
`List.drop (len - k)` is exactly `Array.prototype.slice(-k)` for `k ≥ 0`. -/

/-- `[...buf.slice(-k), x]`: keep the last `k` entries and append `x`. -/
def slidingPush (k : ℕ) (buf : List α) (x : α) : List α :=
  buf.drop (buf.length - k) ++ [x]

/-- The last `n` elements of a list, in order. -/
def lastN (n : ℕ) (l : List α) : List α := l.drop (l.length - n)

/-- `mouseMovements: [...prev.mouseMovements.slice(-49), mouseData]`. -/
def recordMouseMovement (buf : List MouseMovement) (m : MouseMovement) : List MouseMovement :=
  slidingPush 49 buf m

/-- `clicks: [...prev.clicks.slice(-19), clickData]`. -/
def recordClick (buf : List ClickSample) (c : ClickSample) : List ClickSample :=
  slidingPush 19 buf c

/-- `keystrokes: [...prev.keystrokes.slice(-29), keystrokeData]`. -/
def recordKeystroke (buf : List KeystrokeSample) (k : KeystrokeSample) : List KeystrokeSample :=
  slidingPush 29 buf k

/-! ## Challenge endpoint (`/api/captcha/challenge`, server.js) -/

/-- A challenge template from the `challenges` object of the endpoint. -/
structure ChallengeTemplate where
  type : String
  instruction : String
  expectedPattern : Option String
  sequence : Option (List ℕ)
  expectedText : Option String
  timeLimit : ℚ
deriving DecidableEq, Repr

/-- The `'mouse-pattern'` entry of the `challenges` object. -/
def mousePatternTemplate : ChallengeTemplate :=
  { type := "mouse-pattern"
    instruction := "Draw a circle with your mouse"
    expectedPattern := some "circle"
    sequence := none
    expectedText := none
    timeLimit := 10000 }

/-- The `'click-sequence'` entry of the `challenges` object. -/
def clickSequenceTemplate : ChallengeTemplate :=
  { type := "click-sequence"
    instruction := "Click the buttons in order: 1, 3, 2"
    expectedPattern := none
    sequence := some [1, 3, 2]
    expectedText := none
    timeLimit := 15000 }

/-- The `'typing-cadence'` entry of the `challenges` object. -/
def typingCadenceTemplate : ChallengeTemplate :=
  { type := "typing-cadence"
    instruction := "Type: \"I am human\""
    expectedPattern := none
    sequence := none
    expectedText := some "I am human"
    timeLimit := 10000 }

/-- `challenges[challengeType] || challenges['mouse-pattern']`: look the type
up among the three keys, defaulting to the mouse-pattern template. -/
def challengeFor (challengeType : String) : ChallengeTemplate :=
  if challengeType = "mouse-pattern" then mousePatternTemplate
  else if challengeType = "click-sequence" then clickSequenceTemplate
  else if challengeType = "typing-cadence" then typingCadenceTemplate
  else mousePatternTemplate

/-- The endpoint's reply: it always answers `res.json({ success: true,
challenge: ... })`; there is no error path for an unknown type. -/
structure ChallengeReply where
  success : Bool
  challenge : ChallengeTemplate
deriving DecidableEq, Repr

/-- `/api/captcha/challenge` as a function of the requested type. -/
def postChallenge (challengeType : String) : ChallengeReply :=
  { success := true, challenge := challengeFor challengeType }

/-! ## Click-sequence challenge (ChallengeSystem.tsx) and the session
state machine around it (CompleteCaptchaSystem.tsx) -/

/-- The `response.response` payload emitted by `ClickSequenceChallenge`:
the accumulated sequence and the `correct` flag. -/
structure ClickSeqPayload where
  sequence : List ℕ
  correct : Bool
deriving DecidableEq, Repr

/-- `newSequence.every((num, idx) => num === challenge.sequence![idx])`:
compare position by position over the indices of `sub`. -/
def seqCorrect (sub expected : List ℕ) : Bool :=
  (List.range sub.length).all fun i => sub.get? i == expected.get? i

/-- `handleButtonClick` replayed over a list of button presses: accumulate
clicks; once the accumulated sequence reaches the expected length, emit the
response payload (further buttons are disabled by `isComplete`). Returns
`none` when no response was emitted. -/
def clickSeqRun (expected : List ℕ) : List ℕ → List ℕ → Option ClickSeqPayload
  | _, [] => none
  | acc, c :: rest =>
      let newSeq := acc ++ [c]
      if newSeq.length = expected.length then
        some { sequence := newSeq, correct := seqCorrect newSeq expected }
      else clickSeqRun expected newSeq rest

/-- The per-session verification states of `CompleteCaptchaSystem`. -/
inductive CaptchaState where
  | collecting
  | analyzing
  | challenge
  | success
  | failure
deriving DecidableEq, Repr

/-- The `finalResult` record set by the orchestrator. -/
structure FinalResult where
  success : Bool
  isHuman : Bool
  confidence : ℚ
  method : String
deriving DecidableEq, Repr

/-- Session state plus the final result, as held by `CompleteCaptchaSystem`. -/
structure SessionOutcome where
  state : CaptchaState
  final : Option FinalResult
deriving DecidableEq, Repr

/-- `validateChallengeResponse` (CompleteCaptchaSystem.tsx) for a
click-sequence challenge: `return response.response.correct`. -/
def validateClickResponse (r : ClickSeqPayload) : Bool := r.correct

/-- Events a session in the `challenge` state can receive: the countdown
timer firing (`onChallengeTimeout`) or a completed challenge response
(`onChallengeComplete`). -/
inductive ChallengeEvent where
  | timerTimeout
  | complete (r : ClickSeqPayload)
deriving DecidableEq, Repr

/-- One step of the orchestrator. In the `challenge` state,
`handleChallengeTimeout` moves to `failure` with `method: 'timeout'`, and
`handleChallengeComplete` validates the payload and moves to `success` or
`failure` with `method: 'challenge_completion'`. Terminal states ignore
events (the challenge component is unmounted). -/
def stepChallenge (s : SessionOutcome) (e : ChallengeEvent) : SessionOutcome :=
  match s.state, e with
  | .challenge, .timerTimeout =>
      { state := .failure
        final := some { success := false, isHuman := false, confidence := 0, method := "timeout" } }
  | .challenge, .complete r =>
      let v := validateClickResponse r
      { state := if v then .success else .failure
        final := some { success := v, isHuman := v
                        confidence := if v then 0.9 else 0.1
                        method := "challenge_completion" } }
  | _, _ => s

/-- The countdown of ChallengeSystem.tsx: `timeLeft` starts at
`challenge.timeLimit / 1000` and a `setInterval` of 1000 ms decrements it,
firing `onChallengeTimeout` at the first tick whose previous value is
`<= 1`. `timeoutTick` is the index of that tick (the timer fires
`1000 * timeoutTick` ms after the challenge was issued);
`timeoutTick_spec` below proves it is the least such tick. -/
def timeoutTick (timeLimit : ℚ) : ℕ := max 1 ⌈timeLimit / 1000⌉₊

/-- A challenge run as a two-event discrete schedule: the countdown's
timeout fires `1000 * timeoutTick timeLimit` ms after issuance, and one
response is submitted `tSub` ms after issuance; the two events are applied
to a session in the `challenge` state in timestamp order (the timer first
on a tie, since it was scheduled first). -/
def runChallenge (timeLimit : ℚ) (tSub : ℚ) (r : ClickSeqPayload) : SessionOutcome :=
  let tFire : ℚ := 1000 * timeoutTick timeLimit
  let s0 : SessionOutcome := { state := .challenge, final := none }
  if tFire ≤ tSub then
    stepChallenge (stepChallenge s0 .timerTimeout) (.complete r)
  else
    stepChallenge (stepChallenge s0 (.complete r)) .timerTimeout

/-! ## Keystroke analytics (KeystrokeAnalyzer.tsx)

The analyzer computes `averageDwellTime`, `averageFlightTime` and
`rhythmVariability = Math.sqrt(variance)` and classifies the typing
pattern. We carry the variance instead of its square root: every
comparison the code makes on `rhythmVariability` against a constant
`c > 0` is encoded as the equivalent comparison of the variance against
`c ^ 2` (both sides are nonnegative, and squaring is strictly monotone
there, so `sqrt v < c ↔ v < c ^ 2` and `sqrt v > c ↔ v > c ^ 2`). -/

/-- `dwellTimes = keystrokes.map(k => k.duration).filter(d => d > 0 && d < 1000)`. -/
def dwellTimes (ks : List KeystrokeSample) : List ℚ :=
  (ks.map (·.duration)).filter fun d => 0 < d ∧ d < 1000

/-- `averageDwellTime` (0 when no dwell time survives the filter). -/
def averageDwellTime (ks : List KeystrokeSample) : ℚ :=
  let ds := dwellTimes ks
  if ds.length > 0 then ds.sum / ds.length else 0

/-- The flight-time loop: for each adjacent pair, the gap between the
previous key's release (`timestamp + duration`) and the next key's press,
kept only when in `[0, 2000)`. -/
def flightTimes : List KeystrokeSample → List ℚ
  | [] => []
  | [_] => []
  | a :: b :: rest =>
      let ft := b.timestamp - (a.timestamp + a.duration)
      (if 0 ≤ ft ∧ ft < 2000 then [ft] else []) ++ flightTimes (b :: rest)

/-- `averageFlightTime` (0 when no flight time survives the filter). -/
def averageFlightTime (ks : List KeystrokeSample) : ℚ :=
  let fs := flightTimes ks
  if fs.length > 0 then fs.sum / fs.length else 0

/-- The population variance of the flight times around `averageFlightTime`;
the code only computes it (and takes its square root as
`rhythmVariability`) when there are at least two flight times, keeping 0
otherwise. -/
def rhythmVariance (ks : List KeystrokeSample) : ℚ :=
  let fs := flightTimes ks
  if fs.length > 1 then
    let m := averageFlightTime ks
    (fs.map fun t => (t - m) ^ 2).sum / fs.length
  else 0

/-- The threshold cascade of the pattern detector, stated on the average
dwell time, average flight time and rhythm variance (rhythm comparisons
encoded on the variance, see above): bot-like first, then hunt-peck, then
touch-typing, else hybrid. -/
def classifyPattern (avgDwell avgFlight rhythmVar : ℚ) : String :=
  if avgDwell < 30 ∧ avgFlight < 100 ∧ rhythmVar < 50 ^ 2 then "bot-like"
  else if avgDwell > 200 ∨ avgFlight > 500 ∨ rhythmVar > 300 ^ 2 then "hunt-peck"
  else if avgDwell < 100 ∧ avgFlight < 200 ∧ rhythmVar < 100 ^ 2 then "touch-typing"
  else "hybrid"

/-- `typingPattern` as KeystrokeAnalyzer computes it: `'insufficient-data'`
from the empty-input early return, `'insufficient-data'` kept whenever
`keystrokes.length > 10` fails, and otherwise the threshold cascade on the
computed statistics. -/
def typingPattern (ks : List KeystrokeSample) : String :=
  if ks.length = 0 then "insufficient-data"
  else if ks.length > 10 then
    let avgD := averageDwellTime ks
    let avgF := averageFlightTime ks
    let rv := rhythmVariance ks
    if avgD < 30 ∧ avgF < 100 ∧ rv < 50 ^ 2 then "bot-like"
    else if avgD > 200 ∨ avgF > 500 ∨ rv > 300 ^ 2 then "hunt-peck"
    else if avgD < 100 ∧ avgF < 200 ∧ rv < 100 ^ 2 then "touch-typing"
    else "hybrid"
  else "insufficient-data"

/-! ## Concrete inputs used by the theorems -/

/-- Scenario A of the spec:
`{mouseMovements: [], clicks: [], keystrokes: [], sessionDuration: 500}`. -/
def scenarioA : BehaviorData :=
  { mouseMovements := [], clicks := [], keystrokes := [], sessionDuration := 500 }

/-- A classifier response the endpoint accepts, whose reported confidence
(0.9) differs from `|0.5 - riskScore| * 2 = 0.6`. -/
def mlResponseC1 : MLOutcome :=
  .response { success := true
              prediction := some { is_human := true, risk_score := 0.2, confidence := 0.9 } }

/-- A keystroke sample list of length exactly 10 (steady 60 ms dwells,
200 ms cadence). -/
def tenKeystrokes : List KeystrokeSample :=
  (List.range 10).map fun i => { key := "a", timestamp := 200 * i, duration := 60 }

/-- A keystroke sample list of length 11 with the same cadence. -/
def elevenKeystrokes : List KeystrokeSample :=
  (List.range 11).map fun i => { key := "a", timestamp := 200 * i, duration := 60 }

/-- A behavior record with two clicks in a 500 ms session. -/
def behaviorC10 : BehaviorData :=
  { mouseMovements := []
    clicks := [{ x := 10, y := 20, timestamp := 100 }, { x := 30, y := 40, timestamp := 400 }]
    keystrokes := []
    sessionDuration := 500 }

/-! ## Helper lemmas -/

/-- Pushing onto the last `k+1`-window: `slice(-k)` then append sends the
last `k+1` of `ys` to the last `k+1` of `ys ++ [z]`. -/
theorem slidingPush_lastN (k : ℕ) (ys : List α) (z : α) :
    slidingPush k (lastN (k + 1) ys) z = lastN (k + 1) (ys ++ [z]) := by
  unfold slidingPush lastN
  rw [List.length_drop, List.drop_drop, List.length_append,
    List.drop_append_of_le_length (by simp), List.length_singleton]
  congr 2
  omega

/-- Folding the `slice(-k)`-and-append update over any insertion sequence
leaves exactly the last `k+1` insertions, in order. -/
theorem foldl_slidingPush (k : ℕ) (xs : List α) :
    List.foldl (slidingPush k) [] xs = lastN (k + 1) xs := by
  induction xs using List.reverseRecOn with
  | nil => simp [lastN]
  | append_singleton ys z ih =>
      rw [List.foldl_append, List.foldl_cons, List.foldl_nil, ih, slidingPush_lastN]

/-- `lastN n` never returns more than `n` elements. -/
theorem length_lastN_le (n : ℕ) (l : List α) : (lastN n l).length ≤ n := by
  simp [lastN]
  omega

/-- Faithfulness of `timeoutTick` to the countdown loop of
ChallengeSystem.tsx: it is at least 1, its previous `timeLeft` value is
`<= 1` (so the interval fires there), and it is the least tick with that
property (so the interval has not fired earlier). -/
theorem timeoutTick_spec (timeLimit : ℚ) :
    1 ≤ timeoutTick timeLimit ∧
    timeLimit / 1000 - ((timeoutTick timeLimit : ℚ) - 1) ≤ 1 ∧
    ∀ j : ℕ, 1 ≤ j → timeLimit / 1000 - ((j : ℚ) - 1) ≤ 1 → timeoutTick timeLimit ≤ j := by
  refine ⟨le_max_left _ _, ?_, ?_⟩
  · have h1 := Nat.le_ceil (timeLimit / 1000)
    have h2 : (⌈timeLimit / 1000⌉₊ : ℚ) ≤ (timeoutTick timeLimit : ℚ) := by
      exact_mod_cast Nat.le_max_right 1 _
    linarith
  · intro j hj hcond
    have h : timeLimit / 1000 ≤ (j : ℚ) := by linarith
    exact max_le hj (Nat.ceil_le.mpr h)

/-- A response emitted by the click-sequence component has the expected
length and carries `correct = seqCorrect sequence expected`. -/
theorem clickSeqRun_emits (expected : List ℕ) :
    ∀ (rest acc : List ℕ) (p : ClickSeqPayload),
      clickSeqRun expected acc rest = some p →
      p.sequence.length = expected.length ∧ p.correct = seqCorrect p.sequence expected := by
  intro rest
  induction rest with
  | nil => intro acc p h; simp [clickSeqRun] at h
  | cons c rest ih =>
      intro acc p h
      rw [clickSeqRun] at h
      by_cases hl : (acc ++ [c]).length = expected.length
      · rw [if_pos hl] at h
        cases h
        exact ⟨hl, rfl⟩
      · rw [if_neg hl] at h
        exact ih (acc ++ [c]) p h

/-- For same-length sequences, the `every`-style positionwise comparison is
list equality. -/
theorem seqCorrect_iff (sub expected : List ℕ) (hl : sub.length = expected.length) :
    seqCorrect sub expected = true ↔ sub = expected := by
  unfold seqCorrect
  rw [List.all_eq_true]
  constructor
  · intro h
    apply List.ext_get?
    intro i
    by_cases hi : i < sub.length
    · have := h i (List.mem_range.mpr hi)
      exact beq_iff_eq.mp (by simpa using this)
    · rw [List.get?_eq_none.mpr (by omega), List.get?_eq_none.mpr (by omega)]
  · intro h i _
    subst h
    simp

/-! ## Claim theorems -/

/-- C1 (counterexample): the claim says every assessment — `ml_model` ones
included — satisfies `confidence = |0.5 - riskScore| * 2`. But when the
classifier answers with `risk_score = 0.2` and `confidence = 0.9`, the
endpoint returns that confidence unchanged, and `0.9 ≠ |0.5 - 0.2| * 2`. -/
theorem ml_confidence_counterexample :
    (postValidate scenarioA mlResponseC1).result.method = "ml_model" ∧
    (postValidate scenarioA mlResponseC1).result.riskScore = 0.2 ∧
    (postValidate scenarioA mlResponseC1).result.confidence = 0.9 ∧
    (postValidate scenarioA mlResponseC1).result.confidence ≠
      |0.5 - (postValidate scenarioA mlResponseC1).result.riskScore| * 2 := by
  refine ⟨rfl, rfl, rfl, ?_⟩
  have h1 : (postValidate scenarioA mlResponseC1).result.confidence = 0.9 := rfl
  have h2 : (postValidate scenarioA mlResponseC1).result.riskScore = 0.2 := rfl
  rw [h1, h2]
  norm_num [abs]

/-- C1 (amended): every assessment whose method is `fallback_algorithm`
satisfies `confidence = |0.5 - riskScore| * 2` exactly; an `ml_model`
assessment keeps the classifier's reported confidence instead. -/
theorem fallback_confidence_invariant (b : BehaviorData) (ml : MLOutcome)
    (h : (validateCaptcha b ml).method = "fallback_algorithm") :
    (validateCaptcha b ml).confidence =
      |0.5 - (validateCaptcha b ml).riskScore| * 2 := by
  cases hml : mlUsable ml with
  | some p =>
      exfalso
      simp [validateCaptcha, hml] at h
  | none =>
      simp [validateCaptcha, hml, fallbackAssessment]

/-- C1 witness: the invariant holds on the fallback assessment of
scenario A. -/
theorem fallback_confidence_invariant_witness :
    (validateCaptcha scenarioA .failure).confidence =
      |0.5 - (validateCaptcha scenarioA .failure).riskScore| * 2 :=
  fallback_confidence_invariant scenarioA .failure rfl

/-- C2: on `{mouseMovements: [], clicks: [], keystrokes: [],
sessionDuration: 500}` the fallback scorer returns
`clamp(0.5 + 0.3 + 0.2) = 1`, and the endpoint's assessment has
`isHuman = false`, `confidence = 1`, `needsChallenge = true`. -/
theorem scenarioA_fallback_result :
    calculateBasicRiskScore scenarioA = 1 ∧
    (postValidate scenarioA .failure).result.isHuman = false ∧
    (postValidate scenarioA .failure).result.confidence = 1 ∧
    (postValidate scenarioA .failure).result.needsChallenge = true := by
  have h : calculateBasicRiskScore scenarioA = 1 := by
    norm_num [calculateBasicRiskScore, preClampRiskScore, clamp01, scenarioA]
  refine ⟨h, ?_, ?_, ?_⟩ <;>
    simp [postValidate, validateCaptcha, mlUsable, fallbackAssessment, h, abs] <;> norm_num

/-- C3: for every input `behaviorData`, the fallback assessment's
`riskScore` lies in `[0, 1]` (the final clamp) and the derived
`confidence = |0.5 - riskScore| * 2` lies in `[0, 1]` as well. -/
theorem fallback_scores_in_unit_interval (b : BehaviorData) :
    0 ≤ (validateCaptcha b .failure).riskScore ∧
    (validateCaptcha b .failure).riskScore ≤ 1 ∧
    0 ≤ (validateCaptcha b .failure).confidence ∧
    (validateCaptcha b .failure).confidence ≤ 1 := by
  have h : validateCaptcha b .failure = fallbackAssessment b := rfl
  rw [h]
  unfold fallbackAssessment calculateBasicRiskScore clamp01
  set q := preClampRiskScore b
  have h0 : (0 : ℚ) ≤ max 0 (min 1 q) := le_max_left _ _
  have h1 : max 0 (min 1 q) ≤ 1 := max_le zero_le_one (min_le_left _ _)
  have habs : |0.5 - max 0 (min 1 q)| ≤ 0.5 := by
    rw [abs_le]
    constructor <;> linarith
  refine ⟨h0, h1, ?_, ?_⟩
  · positivity
  · nlinarith [habs]

/-- C4: whenever the classifier call throws, times out, or returns a body
the endpoint's guard rejects (`success` false or `prediction` missing),
the validate endpoint still answers `success: true` with the deterministic
fallback assessment (`riskScore = calculateBasicRiskScore`,
`isHuman = riskScore < 0.6`, `confidence = |0.5 - riskScore| * 2`,
`method = fallback_algorithm`); the classifier error never reaches the
caller. -/
theorem classifier_failure_recovered (b : BehaviorData) (ml : MLOutcome)
    (h : mlUsable ml = none) :
    (postValidate b ml).success = true ∧
    (postValidate b ml).result.riskScore = calculateBasicRiskScore b ∧
    ((postValidate b ml).result.isHuman = true ↔ calculateBasicRiskScore b < 0.6) ∧
    (postValidate b ml).result.confidence = |0.5 - calculateBasicRiskScore b| * 2 ∧
    (postValidate b ml).result.method = "fallback_algorithm" := by
  simp [postValidate, validateCaptcha, h, fallbackAssessment]

/-- C4 witness: an ill-formed classifier response (`success: true` but no
prediction) is recovered into a successful fallback reply. -/
theorem classifier_failure_recovered_witness :
    mlUsable (.response { success := true, prediction := none }) = none ∧
    (postValidate scenarioA (.response { success := true, prediction := none })).success = true ∧
    (postValidate scenarioA
        (.response { success := true, prediction := none })).result.method =
      "fallback_algorithm" :=
  ⟨rfl,
    (classifier_failure_recovered scenarioA
      (.response { success := true, prediction := none }) rfl).1,
    (classifier_failure_recovered scenarioA
      (.response { success := true, prediction := none }) rfl).2.2.2.2⟩

/-- C5: folding any insertion sequence through the recording handlers of
`useBehaviorTracking` keeps each buffer within its capacity (motion 50,
click 20, key 30), and the surviving content is exactly the last capacity-
many inserted samples in insertion order (`drop (length - capacity)`). -/
theorem telemetry_buffers_bounded_fifo (ms : List MouseMovement)
    (cs : List ClickSample) (ks : List KeystrokeSample) :
    (List.foldl recordMouseMovement [] ms).length ≤ 50 ∧
    List.foldl recordMouseMovement [] ms = ms.drop (ms.length - 50) ∧
    (List.foldl recordClick [] cs).length ≤ 20 ∧
    List.foldl recordClick [] cs = cs.drop (cs.length - 20) ∧
    (List.foldl recordKeystroke [] ks).length ≤ 30 ∧
    List.foldl recordKeystroke [] ks = ks.drop (ks.length - 30) := by
  have hm : recordMouseMovement = slidingPush 49 := rfl
  have hc : recordClick = slidingPush 19 := rfl
  have hk : recordKeystroke = slidingPush 29 := rfl
  rw [hm, hc, hk, foldl_slidingPush, foldl_slidingPush, foldl_slidingPush]
  exact ⟨length_lastN_le 50 ms, rfl, length_lastN_le 20 cs, rfl, length_lastN_le 30 ks, rfl⟩

/-- C6 (counterexample): with `timeLimitMs = 10500` the 1-second countdown
only fires at the 11th tick (11000 ms), so a correct response submitted at
10600 ms — strictly later than `issuedAt + timeLimitMs` — is still
validated and the session ends in `success`, not in an expiry failure. -/
theorem late_response_counterexample :
    (10500 : ℚ) < 10600 ∧
    runChallenge 10500 10600 { sequence := [1, 3, 2], correct := true } =
      { state := .success
        final := some { success := true, isHuman := true, confidence := 0.9
                        method := "challenge_completion" } } := by
  refine ⟨by norm_num, ?_⟩
  have hceil : ⌈(10500 : ℚ) / 1000⌉₊ = 11 := by
    rw [Nat.ceil_eq_iff (by norm_num)]
    norm_num
  have ht : timeoutTick 10500 = 11 := by
    rw [timeoutTick, hceil]
    rfl
  rw [runChallenge, ht]
  norm_num [stepChallenge, validateClickResponse]

/-- C6 (amended): for a challenge whose time limit is a positive whole
number of seconds (as every registry-issued limit is: 10000 or 15000 ms),
the countdown fires exactly at `issuedAt + timeLimitMs`, so any response
submitted strictly later — whatever its payload — finds the session
already in terminal `failure` with `method = timeout` and is ignored. -/
theorem late_response_expired (timeLimit tSub : ℚ) (k : ℕ) (hk : 1 ≤ k)
    (hL : timeLimit = 1000 * k) (hs : timeLimit < tSub) (r : ClickSeqPayload) :
    runChallenge timeLimit tSub r =
      { state := .failure
        final := some { success := false, isHuman := false, confidence := 0
                        method := "timeout" } } := by
  have hq : timeLimit / 1000 = (k : ℚ) := by
    rw [hL]
    field_simp
  have ht : timeoutTick timeLimit = k := by
    rw [timeoutTick, hq, Nat.ceil_natCast]
    exact max_eq_right hk
  have hle : (1000 : ℚ) * (timeoutTick timeLimit : ℚ) ≤ tSub := by
    rw [ht, ← hL]
    exact le_of_lt hs
  rw [runChallenge, if_pos hle]
  simp [stepChallenge]

/-- C6 witness: scenario E — `timeLimitMs = 10000`, a correct response at
`issuedAt + 10001` still ends in `failure` with `method = timeout`. -/
theorem late_response_expired_witness :
    runChallenge 10000 10001 { sequence := [1, 3, 2], correct := true } =
      { state := .failure
        final := some { success := false, isHuman := false, confidence := 0
                        method := "timeout" } } :=
  late_response_expired 10000 10001 10 (by norm_num) (by norm_num) (by norm_num) _

/-- C7: a click-sequence response is valid iff the submitted sequence
equals the expected one elementwise (the component only emits once the
lengths agree), and an invalid response drives the session to `failure`. -/
theorem click_sequence_validity (expected clicks : List ℕ) (p : ClickSeqPayload)
    (h : clickSeqRun expected [] clicks = some p) :
    (p.correct = true ↔ p.sequence = expected) ∧
    (stepChallenge { state := .challenge, final := none } (.complete p)).state =
      (if p.sequence = expected then CaptchaState.success else CaptchaState.failure) := by
  obtain ⟨hlen, hcor⟩ := clickSeqRun_emits expected clicks [] p h
  have hiff : p.correct = true ↔ p.sequence = expected := by
    rw [hcor]
    exact seqCorrect_iff _ _ hlen
  refine ⟨hiff, ?_⟩
  by_cases hv : p.sequence = expected
  · have hc : p.correct = true := hiff.mpr hv
    simp [stepChallenge, validateClickResponse, hc, hv]
  · have hc : p.correct = false := by
      cases hcp : p.correct
      · rfl
      · exact absurd (hiff.mp hcp) hv
    simp [stepChallenge, validateClickResponse, hc, hv]

/-- C7 witness: scenario D — against expected `[1, 3, 2]`, the response
`[1, 3, 2]` is emitted as correct and `[1, 2, 3]` as incorrect, and the
incorrect one moves the session to `failure`. -/
theorem click_sequence_validity_witness :
    clickSeqRun [1, 3, 2] [] [1, 3, 2] =
        some { sequence := [1, 3, 2], correct := true } ∧
    clickSeqRun [1, 3, 2] [] [1, 2, 3] =
        some { sequence := [1, 2, 3], correct := false } ∧
    (({ sequence := [1, 3, 2], correct := true } : ClickSeqPayload).correct = true ↔
        ([1, 3, 2] : List ℕ) = [1, 3, 2]) ∧
    (stepChallenge { state := .challenge, final := none }
          (.complete { sequence := [1, 2, 3], correct := false })).state =
      CaptchaState.failure := by
  refine ⟨by decide, by decide,
    (click_sequence_validity [1, 3, 2] [1, 3, 2]
      { sequence := [1, 3, 2], correct := true } (by decide)).1, ?_⟩
  have h := (click_sequence_validity [1, 3, 2] [1, 2, 3]
    { sequence := [1, 2, 3], correct := false } (by decide)).2
  rw [h]
  decide

/-- C8 (counterexample): the claim places `insufficient-data` exactly at
fewer than 10 keystrokes, but the analyzer's guard is
`keystrokes.length > 10`, so a 10-keystroke input — which the claim says
must be classified — still yields `insufficient-data`. -/
theorem ten_keystrokes_counterexample :
    tenKeystrokes.length = 10 ∧ ¬ tenKeystrokes.length < 10 ∧
    typingPattern tenKeystrokes = "insufficient-data" := by
  refine ⟨by decide, by decide, ?_⟩
  have h : tenKeystrokes.length = 10 := by decide
  rw [typingPattern, if_neg (by omega), if_neg (by omega)]

/-- C8 (amended): `typingPattern` is `insufficient-data` exactly when the
list has at most 10 keystrokes (fewer than 11, not fewer than 10); above
that, the threshold cascade applies in the claimed tie-break order,
bot-like first (rhythm comparisons taken on the variance against the
squared thresholds, since rhythm is its square root). -/
theorem typing_pattern_thresholds (ks : List KeystrokeSample) :
    (typingPattern ks = "insufficient-data" ↔ ks.length ≤ 10) ∧
    (10 < ks.length →
      typingPattern ks =
        classifyPattern (averageDwellTime ks) (averageFlightTime ks) (rhythmVariance ks)) := by
  constructor
  · by_cases h0 : ks.length = 0
    · rw [typingPattern, if_pos h0]
      simp
      omega
    by_cases h10 : ks.length > 10
    · rw [typingPattern, if_neg h0, if_pos h10]
      constructor
      · intro h
        exfalso
        dsimp only at h
        split_ifs at h <;> simp at h
      · omega
    · rw [typingPattern, if_neg h0, if_neg h10]
      simp
      omega
  · intro h
    rw [typingPattern, classifyPattern, if_neg (by omega), if_pos h]

/-- C8 witness: an 11-keystroke input is classified through the cascade. -/
theorem typing_pattern_thresholds_witness :
    typingPattern elevenKeystrokes =
      classifyPattern (averageDwellTime elevenKeystrokes)
        (averageFlightTime elevenKeystrokes) (rhythmVariance elevenKeystrokes) :=
  (typing_pattern_thresholds elevenKeystrokes).2 (by decide)

/-- C9 (counterexample): issuing a challenge with the unrecognized type
`circle-draw` does not fail with `UnknownChallengeType`: the endpoint
itself substitutes the default mouse-pattern challenge and replies
`success: true`. -/
theorem unknown_type_counterexample :
    postChallenge "circle-draw" =
      { success := true, challenge := mousePatternTemplate } ∧
    mousePatternTemplate.type = "mouse-pattern" ∧
    ("circle-draw" : String) ≠ "mouse-pattern" ∧
    ("circle-draw" : String) ≠ "click-sequence" ∧
    ("circle-draw" : String) ≠ "typing-cadence" := by
  refine ⟨?_, rfl, by decide, by decide, by decide⟩
  rw [postChallenge, challengeFor, if_neg (by decide), if_neg (by decide), if_neg (by decide)]

/-- C9 (amended): for every challenge type outside the three recognized
ones, the challenge endpoint substitutes the default mouse-pattern
challenge itself and succeeds; no `UnknownChallengeType` error exists and
the caller is never asked to default. -/
theorem unknown_type_defaults (t : String)
    (h1 : t ≠ "mouse-pattern") (h2 : t ≠ "click-sequence") (h3 : t ≠ "typing-cadence") :
    postChallenge t = { success := true, challenge := mousePatternTemplate } := by
  rw [postChallenge, challengeFor, if_neg h1, if_neg h2, if_neg h3]

/-- C9 witness: a concrete unrecognized type receives the default. -/
theorem unknown_type_defaults_witness :
    postChallenge "not-a-known-type" =
      { success := true, challenge := mousePatternTemplate } :=
  unknown_type_defaults "not-a-known-type" (by decide) (by decide) (by decide)

/-- C10: the click-frequency denominator `max(sessionDuration/1000, 1)` is
at least 1 (so never zero), and for any session shorter than 1000 ms that
contains clicks the computed frequency is the raw click count. -/
theorem click_frequency_denominator_floor (b : BehaviorData) :
    1 ≤ clickFrequencyDenom b ∧ clickFrequencyDenom b ≠ 0 ∧
    (b.clicks ≠ [] → b.sessionDuration < 1000 →
      clickFrequency b = b.clicks.length) := by
  refine ⟨le_max_right _ _, ?_, ?_⟩
  · have h := le_max_right (b.sessionDuration / 1000) (1 : ℚ)
    intro hc
    rw [clickFrequencyDenom] at hc
    rw [hc] at h
    norm_num at h
  · intro _ hd
    rw [clickFrequency]
    have hle : b.sessionDuration / 1000 ≤ 1 := by linarith
    rw [max_eq_right hle, div_one]

/-- C10 witness: two clicks in a 500 ms session give frequency 2, the raw
click count. -/
theorem click_frequency_denominator_floor_witness :
    1 ≤ clickFrequencyDenom behaviorC10 ∧
    clickFrequency behaviorC10 = behaviorC10.clicks.length :=
  ⟨(click_frequency_denominator_floor behaviorC10).1,
    (click_frequency_denominator_floor behaviorC10).2.2 (by decide) (by norm_num [behaviorC10])⟩
